import Mathlib

/-!
Shallow embedding of the shu-2al SRT subtitle cleaner.

The Rust sources modelled here are `src/srt/timestamp.rs`, `src/srt/direction.rs`,
`src/srt/subtitle.rs` and `src/srt/srt.rs`.  Rust strings are modelled through
their character lists; `u32`/`i64` arithmetic is modelled on `Nat`/`Int` with
explicit reductions modulo `2^32` / wrap-around at `2^63` where the Rust types
overflow (release-profile two's-complement semantics).  File I/O is external: the
reader is modelled as a list of line-read results, the writer as the emitted
string.
-/

namespace Shu2al

/-- Models Rust `str::contains` on character lists: the needle occurs as a
contiguous substring of the haystack. -/
def containsList (needle : List Char) : List Char → Bool
  | [] => needle.isEmpty
  | c :: rest => needle.isPrefixOf (c :: rest) || containsList needle rest

/-- Models Rust `str::contains`. -/
def strContains (s pat : String) : Bool :=
  containsList pat.data s.data

/-- The recursion of `splitSepList`, structural on a fuel argument so that it
reduces definitionally; every recursive call shortens the haystack, so with
`fuel` at least the haystack length the `0` case is unreachable. -/
def splitSepFuel (sep : List Char) : Nat → List Char → List (List Char)
  | _, [] => [[]]
  | 0, hay => [hay]
  | fuel + 1, c :: rest =>
    if sep.isPrefixOf (c :: rest) then
      [] :: splitSepFuel sep fuel (List.drop (sep.length - 1) rest)
    else
      match splitSepFuel sep fuel rest with
      | [] => [[c]]
      | group :: groups => (c :: group) :: groups

/-- Models Rust `str::split` with a non-empty literal pattern: splits the
haystack at each leftmost non-overlapping occurrence of the separator. -/
def splitSepList (sep hay : List Char) : List (List Char) :=
  splitSepFuel sep hay.length hay

/-- Models Rust `str::split` collected into a vector of strings. -/
def strSplit (s sep : String) : List String :=
  (splitSepList sep.data s.data).map (fun l => String.mk l)

/-- Models Rust `str::trim` on character lists (whitespace stripped from both
ends). -/
def trimList (l : List Char) : List Char :=
  ((l.dropWhile Char.isWhitespace).reverse.dropWhile Char.isWhitespace).reverse

/-- Models Rust `str::trim`. -/
def strTrim (s : String) : String :=
  String.mk (trimList s.data)

/-- Models Rust `"...".parse::<u32>()`: an optional leading plus sign, then at
least one ASCII digit, with the value bounded by `u32::MAX`. -/
def parseU32 (s : String) : Option Nat :=
  let cs := match s.data with
    | '+' :: rest => rest
    | cs => cs
  if cs.isEmpty then none
  else if cs.all Char.isDigit then
    let v := cs.foldl (fun a c => a * 10 + (c.toNat - 48)) 0
    if v < 2 ^ 32 then some v else none
  else none

/-- Zero-pads the decimal rendering of `n` to at least `width` characters,
modelling Rust format specifiers such as `{:02}` and `{:03}`. -/
def padZeros (width : Nat) (n : Nat) : String :=
  let s := toString n
  if s.length < width then String.mk (List.replicate (width - s.length) '0') ++ s else s

/-- Models Rust `char::is_ascii_punctuation`: the four ASCII ranges
`!..=/`, `:..=@`, `[..=` backquote and `{..=~`. -/
def isAsciiPunct (c : Char) : Bool :=
  (0x21 ≤ c.toNat && c.toNat ≤ 0x2F)
    || (0x3A ≤ c.toNat && c.toNat ≤ 0x40)
    || (0x5B ≤ c.toNat && c.toNat ≤ 0x60)
    || (0x7B ≤ c.toNat && c.toNat ≤ 0x7E)

/-- Models Rust `Ord::cmp` on unsigned integers. -/
def natCmp (a b : Nat) : Ordering :=
  if a < b then Ordering.lt else if a = b then Ordering.eq else Ordering.gt

/-- Wrap-around of a mathematical integer into the `i64` range, modelling
two's-complement overflow of Rust `i64` addition in release mode. -/
def i64wrap (x : Int) : Int :=
  (x + 2 ^ 63) % 2 ^ 64 - 2 ^ 63

/-- `src/srt/direction.rs`: the `Direction` enum. -/
inductive Direction where
  | Forward
  | Backward
deriving DecidableEq

/-- `src/srt/timestamp.rs`: the `Timestamp` struct.  The four fields are `u32`
in Rust; they are modelled as `Nat`, and every operation that constructs a
`Timestamp` lands in the `u32` range exactly as the source does. -/
structure Timestamp where
  hours : Nat
  minutes : Nat
  seconds : Nat
  milliseconds : Nat
deriving DecidableEq

namespace Timestamp

/-- `Timestamp::from_string`: split on `:` into exactly three parts, split the
third part on `,` into exactly two, and parse each of the four substrings as a
`u32`, in the source's order of checks. -/
def from_string (timestamp_str : String) : Except String Timestamp :=
  match strSplit timestamp_str ":" with
  | [p0, p1, p2] =>
    match parseU32 p0 with
    | none => Except.error "Invalid hours"
    | some hours =>
      match parseU32 p1 with
      | none => Except.error "Invalid minutes"
      | some minutes =>
        match strSplit p2 "," with
        | [s0, s1] =>
          match parseU32 s0 with
          | none => Except.error "Invalid seconds"
          | some seconds =>
            match parseU32 s1 with
            | none => Except.error "Invalid milliseconds"
            | some milliseconds =>
              Except.ok ⟨hours, minutes, seconds, milliseconds⟩
        | _ => Except.error "Invalid seconds format"
  | _ => Except.error "Invalid timestamp format"

/-- `Timestamp::to_millis`: the accumulation `hours*3600 + minutes*60 + seconds`
and `total_seconds*1000 + milliseconds` is performed in `u32`, hence the
reductions modulo `2^32`; the final cast to `u64` is exact. -/
def to_millis (t : Timestamp) : Nat :=
  let total_seconds := (t.hours * 3600 + t.minutes * 60 + t.seconds) % 2 ^ 32
  (total_seconds * 1000 + t.milliseconds) % 2 ^ 32

/-- `Timestamp::from_millis`: decomposition of a `u64` millisecond count by
division/modulo; each component is cast to `u32` (reduction modulo `2^32`). -/
def from_millis (millis : Nat) : Timestamp :=
  let total_seconds := millis / 1000
  let milliseconds := millis % 1000 % 2 ^ 32
  let seconds := total_seconds % 60 % 2 ^ 32
  let total_minutes := total_seconds / 60
  let minutes := total_minutes % 60 % 2 ^ 32
  let hours := total_minutes / 60 % 2 ^ 32
  ⟨hours, minutes, seconds, milliseconds⟩

/-- The `Display` implementation: `"{:02}:{:02}:{:02},{:03}"`. -/
def format (t : Timestamp) : String :=
  padZeros 2 t.hours ++ ":" ++ padZeros 2 t.minutes ++ ":" ++ padZeros 2 t.seconds
    ++ "," ++ padZeros 3 t.milliseconds

/-- The `Ord` implementation: lexicographic comparison of the 4-tuple
(hours, minutes, seconds, milliseconds). -/
def cmp (a b : Timestamp) : Ordering :=
  if a.hours ≠ b.hours then natCmp a.hours b.hours
  else if a.minutes ≠ b.minutes then natCmp a.minutes b.minutes
  else if a.seconds ≠ b.seconds then natCmp a.seconds b.seconds
  else natCmp a.milliseconds b.milliseconds

/-- `Timestamp::move_ts`: `delta` is the duration's millisecond count
(`Duration::as_millis`, a `u128`).  The current value is cast to `i64`
(exact, as `to_millis < 2^32`), oversized durations are rejected against
`i64::MAX`, the signed delta is added with `i64` wrap-around semantics,
the result is clamped at zero and the timestamp is reassigned from it. -/
def move_ts (t : Timestamp) (delta : Nat) (direction : Direction) :
    Except String Timestamp :=
  let total_milliseconds : Int := (t.to_millis : Int)
  if total_milliseconds < 0 then
    Except.error "Timestamp cannot be negative"
  else if delta > 2 ^ 63 - 1 then
    Except.error "Duration is too large"
  else
    let d : Int := match direction with
      | Direction.Forward => (delta : Int)
      | Direction.Backward => -(delta : Int)
    let new_timestamp := max (i64wrap (total_milliseconds + d)) 0
    Except.ok (from_millis new_timestamp.toNat)

end Timestamp

/-- `src/srt/subtitle.rs`: the fixed denylist `WORDS_LIST`. -/
def WORDS_LIST : List String :=
  ["شتركوا في القناة",
   "لا تنسوا الاشتراك في القناة",
   "لا تنسوا الاشتراك",
   "المترجم للقناة",
   "موسيقى",
   "patch"]

/-- `src/srt/subtitle.rs`: the `Subtitle` struct. -/
structure Subtitle where
  start_time : Timestamp
  end_time : Timestamp
  text : String
deriving DecidableEq

namespace Subtitle

/-- `Subtitle::is_valid`: text non-empty, free of every denylist phrase, and
not made up exclusively of ASCII punctuation characters. -/
def is_valid (s : Subtitle) : Bool :=
  !s.text.data.isEmpty
    && !WORDS_LIST.any (fun word => strContains s.text word)
    && !s.text.data.all isAsciiPunct

/-- `Subtitle::new`: locate the first line containing `-->`, require a
following text line, split the located line on the five-character separator
`" --> "`, parse both sides as timestamps, take the trimmed next line as
text, and reject the candidate if `is_valid` fails. -/
def new (lines : List String) : Except String Subtitle :=
  match lines.findIdx? (fun line => strContains line "-->") with
  | none => Except.error "No timestamp found"
  | some ts_i =>
    if ts_i + 1 ≥ lines.length then Except.error "No text provided"
    else
      match strSplit (lines.getD ts_i "") " --> " with
      | [] => Except.error "Invalid start timestamp"
      | [_] => Except.error "Invalid end timestamp"
      | start_time :: end_time :: _ =>
        match Timestamp.from_string start_time with
        | Except.error e => Except.error e
        | Except.ok st =>
          match Timestamp.from_string end_time with
          | Except.error e => Except.error e
          | Except.ok et =>
            let subtitle : Subtitle := ⟨st, et, strTrim (lines.getD (ts_i + 1) "")⟩
            if !subtitle.is_valid then Except.error "Invalid subtitle"
            else Except.ok subtitle

/-- `Subtitle::to_string`: `"{start} --> {end}\n{text}\n"`. -/
def to_string (s : Subtitle) : String :=
  Timestamp.format s.start_time ++ " --> " ++ Timestamp.format s.end_time
    ++ "\n" ++ s.text ++ "\n"

/-- `Subtitle::move_start`: delegates to `Timestamp::move_ts` on the start
field only. -/
def move_start (s : Subtitle) (delta : Nat) (direction : Direction) :
    Except String Subtitle :=
  match Timestamp.move_ts s.start_time delta direction with
  | Except.ok st => Except.ok { s with start_time := st }
  | Except.error e => Except.error e

end Subtitle

namespace SRT

/-- The loop body of `SRT::read_file`.  Each element of the input list is one
`reader.lines()` result: `Except.error` models an I/O error on that line (the
source propagates it with `?`), `Except.ok` a successfully read line.  The
accumulator `acc` is `self.subtitles`, `buf` the `lines` buffer. -/
def read_loop (acc : List Subtitle) (buf : List String) :
    List (Except String String) → Except String (List Subtitle)
  | [] => Except.ok acc
  | Except.error e :: _ => Except.error e
  | Except.ok line :: rest =>
    let line := strTrim line
    if line.data.isEmpty then read_loop acc [] rest
    else
      let buf := buf ++ [line]
      if buf.length > 1 then
        match Subtitle.new buf with
        | Except.ok subtitle => read_loop (acc ++ [subtitle]) [] rest
        | Except.error _ => read_loop acc buf rest
      else read_loop acc buf rest

/-- `SRT::read_file`, starting from an empty subtitle list and empty buffer. -/
def read_file (lines : List (Except String String)) : Except String (List Subtitle) :=
  read_loop [] [] lines

/-- The loop body of `SRT::write_file`: for the entry at 0-based position `i`,
`writeln!` emits `i + 1` followed by a newline, then the subtitle's rendering
followed by a newline. -/
def write_loop (subs : List Subtitle) (i : Nat) : String :=
  match subs with
  | [] => ""
  | subtitle :: rest =>
    toString (i + 1) ++ "\n" ++ Subtitle.to_string subtitle ++ "\n" ++ write_loop rest (i + 1)

/-- `SRT::write_file` as a pure function of the subtitle sequence: the full
text emitted to the writer. -/
def write_file (subs : List Subtitle) : String :=
  write_loop subs 0

end SRT

/-- Modelled from the spec: the serialization contract of `Document.serialize`
in section 4.3, amended with the blank separator line that `writeln!` appends
after each rendered entry — for the entry at 1-based position `n`, emit
`"{n}\n{entry.render()}\n"`, concatenated in sequence order. -/
def serializeSpec (n : Nat) : List Subtitle → String
  | [] => ""
  | subtitle :: rest =>
    toString n ++ "\n" ++ Subtitle.to_string subtitle ++ "\n" ++ serializeSpec (n + 1) rest

/-! ## Helper lemmas -/

/-- `to_millis` always lands in the `u32` range, so its cast to `i64` in
`move_ts` is exact. -/
theorem to_millis_lt (t : Timestamp) : t.to_millis < 2 ^ 32 := by
  unfold Timestamp.to_millis
  exact Nat.mod_lt _ (by norm_num)

/-- A `u32` decomposition-recomposition identity used for the millisecond
round trip. -/
theorem to_millis_from_millis (m : Nat) (hm : m < 2 ^ 32) :
    Timestamp.to_millis (Timestamp.from_millis m) = m := by
  unfold Timestamp.to_millis Timestamp.from_millis
  simp only
  omega

/-- `C1`: For every non-negative integer m, from_millis(m).to_millis() == m —
refuted: the accumulation in `to_millis` is performed in `u32` and wraps at
`2^32`, so the round trip fails at `m = 2^32` (the result is `0`). -/
theorem C1_counterexample :
    Timestamp.to_millis (Timestamp.from_millis 4294967296) = 0
      ∧ Timestamp.to_millis (Timestamp.from_millis 4294967296) ≠ 4294967296 := by
  constructor
  · decide
  · decide

/-- `C1` (amended): for every non-negative integer m strictly below `2^32`,
`from_millis(m).to_millis() == m`; the accumulation is performed in 32-bit
arithmetic, so the round trip holds exactly on the 32-bit range. -/
theorem C1_millis_round_trip (m : Nat) (hm : m < 2 ^ 32) :
    Timestamp.to_millis (Timestamp.from_millis m) = m :=
  to_millis_from_millis m hm

/-- Witness for `C1_millis_round_trip` at `m = 123456789`. -/
theorem C1_witness :
    Timestamp.to_millis (Timestamp.from_millis 123456789) = 123456789 :=
  C1_millis_round_trip 123456789 (by norm_num)

/-- `C3`: shifting any timestamp Backward by a delta whose magnitude is within
the signed 64-bit range and exceeds the current millisecond value succeeds and
yields `from_millis(0)`, which renders as "00:00:00,000". -/
theorem C3_shift_clamps_at_zero (t : Timestamp) (delta : Nat)
    (hrange : delta ≤ 2 ^ 63 - 1) (hgt : t.to_millis < delta) :
    Timestamp.move_ts t delta Direction.Backward = Except.ok (Timestamp.from_millis 0)
      ∧ Timestamp.format (Timestamp.from_millis 0) = "00:00:00,000" := by
  refine ⟨?_, by decide⟩
  have hT := to_millis_lt t
  unfold Timestamp.move_ts
  rw [if_neg (by omega), if_neg (by omega)]
  have harg :
      (max (i64wrap ((t.to_millis : Int) + -(delta : Int))) 0).toNat = 0 := by
    unfold i64wrap
    omega
  simp only [harg]

/-- Witness for `C3_shift_clamps_at_zero` with `t = from_millis 5`,
`delta = 10`. -/
theorem C3_witness :
    Timestamp.move_ts (Timestamp.from_millis 5) 10 Direction.Backward
        = Except.ok (Timestamp.from_millis 0)
      ∧ Timestamp.format (Timestamp.from_millis 0) = "00:00:00,000" :=
  C3_shift_clamps_at_zero (Timestamp.from_millis 5) 10 (by norm_num) (by decide)

/-- `C4`: `move_ts` (and `move_start`, which delegates to it) succeeds if and
only if the duration's millisecond magnitude is at most `i64::MAX`; in
particular a shift never fails because the clamped result would have been
negative. -/
theorem C4_shift_error_iff_overflow :
    (∀ (t : Timestamp) (delta : Nat) (dir : Direction),
      (Timestamp.move_ts t delta dir).isOk = true ↔ delta ≤ 2 ^ 63 - 1)
    ∧ (∀ (s : Subtitle) (delta : Nat) (dir : Direction),
      (Subtitle.move_start s delta dir).isOk = true ↔ delta ≤ 2 ^ 63 - 1) := by
  have key : ∀ (t : Timestamp) (delta : Nat) (dir : Direction),
      (Timestamp.move_ts t delta dir).isOk = true ↔ delta ≤ 2 ^ 63 - 1 := by
    intro t delta dir
    unfold Timestamp.move_ts
    rw [if_neg (by omega)]
    by_cases h : delta > 2 ^ 63 - 1
    · rw [if_pos h]
      simp only [Except.isOk, Except.toBool, Bool.false_eq_true, false_iff]
      omega
    · rw [if_neg h]
      simp only [Except.isOk, Except.toBool, true_iff]
      omega
  refine ⟨key, ?_⟩
  intro s delta dir
  unfold Subtitle.move_start
  rcases h : Timestamp.move_ts s.start_time delta dir with e | st
  · have := (key s.start_time delta dir).symm
    rw [h] at this
    simpa using this.symm
  · have := (key s.start_time delta dir).symm
    rw [h] at this
    simpa using this.symm

/-- `C9`: a successful `move_start` changes only the start timestamp — the end
timestamp and the text are unchanged. -/
theorem C9_move_start_frame (s : Subtitle) (delta : Nat) (dir : Direction)
    (s2 : Subtitle) (h : Subtitle.move_start s delta dir = Except.ok s2) :
    s2.end_time = s.end_time ∧ s2.text = s.text := by
  unfold Subtitle.move_start at h
  rcases hmt : Timestamp.move_ts s.start_time delta dir with e | st
  · rw [hmt] at h
    cases h
  · rw [hmt] at h
    cases h
    exact ⟨rfl, rfl⟩

/-- Witness for `C9_move_start_frame`: shifting
`⟨00:00:00,000, 00:00:05,000, "Hi"⟩` forward by one second. -/
theorem C9_witness :
    (⟨Timestamp.from_millis 1000, Timestamp.from_millis 5000, "Hi"⟩ : Subtitle).end_time
        = (⟨Timestamp.from_millis 0, Timestamp.from_millis 5000, "Hi"⟩ : Subtitle).end_time
      ∧ (⟨Timestamp.from_millis 1000, Timestamp.from_millis 5000, "Hi"⟩ : Subtitle).text
        = (⟨Timestamp.from_millis 0, Timestamp.from_millis 5000, "Hi"⟩ : Subtitle).text :=
  C9_move_start_frame ⟨Timestamp.from_millis 0, Timestamp.from_millis 5000, "Hi"⟩
    1000 Direction.Forward
    ⟨Timestamp.from_millis 1000, Timestamp.from_millis 5000, "Hi"⟩ rfl

/-- `C2`: a.to_millis() < b.to_millis() ⇔ a < b for all timestamps including
out-of-range components — refuted: the parser-accepted timestamp 00:75:00,000
is lexicographically below 01:00:00,000 but denotes more milliseconds. -/
theorem C2_counterexample :
    Timestamp.from_string "00:75:00,000" = Except.ok ⟨0, 75, 0, 0⟩
      ∧ Timestamp.cmp ⟨0, 75, 0, 0⟩ ⟨1, 0, 0, 0⟩ = Ordering.lt
      ∧ ¬ Timestamp.to_millis ⟨0, 75, 0, 0⟩ < Timestamp.to_millis ⟨1, 0, 0, 0⟩ := by
  refine ⟨rfl, by decide, by decide⟩

/-- `C2` (amended): for timestamps whose components are within their
conventional ranges (minutes, seconds below 60, milliseconds below 1000) and
whose hours stay below 1193 — so that the u32 accumulation in `to_millis`
cannot wrap — `a.to_millis() < b.to_millis()` holds exactly when the 4-tuple
lexicographic comparison orders `a` below `b`. -/
theorem C2_ordering_consistency (a b : Timestamp)
    (ha1 : a.hours < 1193) (ha2 : a.minutes < 60) (ha3 : a.seconds < 60)
    (ha4 : a.milliseconds < 1000)
    (hb1 : b.hours < 1193) (hb2 : b.minutes < 60) (hb3 : b.seconds < 60)
    (hb4 : b.milliseconds < 1000) :
    Timestamp.to_millis a < Timestamp.to_millis b ↔ Timestamp.cmp a b = Ordering.lt := by
  unfold Timestamp.to_millis Timestamp.cmp natCmp
  simp only
  rw [Nat.mod_eq_of_lt (a := a.hours * 3600 + a.minutes * 60 + a.seconds) (by omega),
    Nat.mod_eq_of_lt (a := b.hours * 3600 + b.minutes * 60 + b.seconds) (by omega),
    Nat.mod_eq_of_lt (by omega), Nat.mod_eq_of_lt (by omega)]
  split_ifs <;> simp_all <;> omega

/-- Witness for `C2_ordering_consistency` at 00:00:01,000 and 00:00:02,000. -/
theorem C2_witness :
    Timestamp.to_millis ⟨0, 0, 1, 0⟩ < Timestamp.to_millis ⟨0, 0, 2, 0⟩
      ↔ Timestamp.cmp ⟨0, 0, 1, 0⟩ ⟨0, 0, 2, 0⟩ = Ordering.lt :=
  C2_ordering_consistency ⟨0, 0, 1, 0⟩ ⟨0, 0, 2, 0⟩ (by norm_num) (by norm_num)
    (by norm_num) (by norm_num) (by norm_num) (by norm_num) (by norm_num) (by norm_num)

/-- `C5`: `from_string` succeeds exactly when the colon-split yields three
parts, the comma-split of the third yields two parts, and all four substrings
parse as `u32` integers; components are not range-checked, so minutes = 75 is
accepted. -/
theorem C5_from_string_ok_iff :
    (∀ s : String,
      (Timestamp.from_string s).isOk = true ↔
        ((strSplit s ":").length = 3
          ∧ (strSplit ((strSplit s ":").getD 2 "") ",").length = 2
          ∧ (parseU32 ((strSplit s ":").getD 0 "")).isSome = true
          ∧ (parseU32 ((strSplit s ":").getD 1 "")).isSome = true
          ∧ (parseU32 ((strSplit ((strSplit s ":").getD 2 "") ",").getD 0 "")).isSome = true
          ∧ (parseU32 ((strSplit ((strSplit s ":").getD 2 "") ",").getD 1 "")).isSome = true))
      ∧ (Timestamp.from_string "00:75:00,000").isOk = true := by
  refine ⟨?_, by decide⟩
  intro s
  unfold Timestamp.from_string
  rcases hp : strSplit s ":" with _ | ⟨p0, _ | ⟨p1, _ | ⟨p2, _ | ⟨p3, ps⟩⟩⟩⟩
  · simp [hp, Except.isOk, Except.toBool]
  · simp [hp, Except.isOk, Except.toBool]
  · simp [hp, Except.isOk, Except.toBool]
  · rcases h0 : parseU32 p0 with _ | v0
    · simp [hp, h0, Except.isOk, Except.toBool]
    · rcases h1 : parseU32 p1 with _ | v1
      · simp [hp, h0, h1, Except.isOk, Except.toBool]
      · rcases hq : strSplit p2 "," with _ | ⟨q0, _ | ⟨q1, _ | ⟨q2, qs⟩⟩⟩
        · simp [hp, h0, h1, hq, Except.isOk, Except.toBool]
        · simp [hp, h0, h1, hq, Except.isOk, Except.toBool]
        · rcases h2 : parseU32 q0 with _ | v2
          · simp [hp, h0, h1, hq, h2, Except.isOk, Except.toBool]
          · rcases h3 : parseU32 q1 with _ | v3
            · simp [hp, h0, h1, hq, h2, h3, Except.isOk, Except.toBool]
            · simp [hp, h0, h1, hq, h2, h3, Except.isOk, Except.toBool]
        · simp [hp, h0, h1, hq, Except.isOk, Except.toBool]
  · simp [hp, Except.isOk, Except.toBool]

/-- `C6`: `is_valid` holds exactly when the text is non-empty, free of every
denylist phrase, and not exclusively ASCII punctuation; "..." and "," are
rejected, "Hello, World!" is accepted, and a block whose text is exactly the
denylisted word for "music" fails to construct through `Subtitle::new`. -/
theorem C6_is_valid_iff :
    (∀ s : Subtitle,
      Subtitle.is_valid s = true ↔
        (s.text.data.isEmpty = false
          ∧ (∀ word ∈ WORDS_LIST, strContains s.text word = false)
          ∧ s.text.data.all isAsciiPunct = false))
      ∧ Subtitle.is_valid ⟨Timestamp.from_millis 0, Timestamp.from_millis 0, "..."⟩ = false
      ∧ Subtitle.is_valid ⟨Timestamp.from_millis 0, Timestamp.from_millis 0, ","⟩ = false
      ∧ Subtitle.is_valid
          ⟨Timestamp.from_millis 0, Timestamp.from_millis 0, "Hello, World!"⟩ = true
      ∧ (Subtitle.new ["00:00:01,000 --> 00:00:05,000", "موسيقى"]).isOk = false := by
  refine ⟨?_, by decide, by decide, by decide, by decide⟩
  intro s
  unfold Subtitle.is_valid
  simp [Bool.and_eq_true, List.any_eq_true, Bool.not_eq_true']
  tauto

/-- The serialization loop, shifted to 1-based numbering, is the spec's
serialization contract. -/
theorem write_loop_eq_serializeSpec (subs : List Subtitle) :
    ∀ i, SRT.write_loop subs i = serializeSpec (i + 1) subs := by
  induction subs with
  | nil => intro i; rfl
  | cons s rest ih =>
    intro i
    unfold SRT.write_loop serializeSpec
    rw [ih]

/-- `C7`: serialization emits exactly `"{i}\n{entry.render()}"` per entry —
refuted: `writeln!` appends one more newline after the rendered entry (the
blank separator line), so even a one-entry document serializes to the claimed
string plus a trailing newline. -/
theorem C7_counterexample :
    SRT.write_file [⟨⟨0, 0, 1, 0⟩, ⟨0, 0, 5, 0⟩, "Hello, World!"⟩]
        ≠ "1\n" ++ Subtitle.to_string ⟨⟨0, 0, 1, 0⟩, ⟨0, 0, 5, 0⟩, "Hello, World!"⟩
      ∧ SRT.write_file [⟨⟨0, 0, 1, 0⟩, ⟨0, 0, 5, 0⟩, "Hello, World!"⟩]
        = "1\n" ++ Subtitle.to_string ⟨⟨0, 0, 1, 0⟩, ⟨0, 0, 5, 0⟩, "Hello, World!"⟩ ++ "\n" := by
  refine ⟨by decide, rfl⟩

/-- `C7` (amended): serialization emits, for each retained entry in sequence
order with 1-based position i, exactly `"{i}\n{entry.render()}\n"` (the extra
newline being the blank separator line `writeln!` appends), concatenated; the
numbering is always 1-based and contiguous regardless of the index lines in
the input — input indices 5 and 12 are renumbered 1 and 2. -/
theorem C7_serialize_renumbers :
    (∀ subs : List Subtitle, SRT.write_file subs = serializeSpec 1 subs)
      ∧ SRT.read_file [Except.ok "5", Except.ok "00:00:01,000 --> 00:00:05,000",
          Except.ok "Hello, World!", Except.ok "", Except.ok "12",
          Except.ok "00:00:06,000 --> 00:00:08,000", Except.ok "Hi"]
        = Except.ok [⟨⟨0, 0, 1, 0⟩, ⟨0, 0, 5, 0⟩, "Hello, World!"⟩,
            ⟨⟨0, 0, 6, 0⟩, ⟨0, 0, 8, 0⟩, "Hi"⟩]
      ∧ SRT.write_file [⟨⟨0, 0, 1, 0⟩, ⟨0, 0, 5, 0⟩, "Hello, World!"⟩,
            ⟨⟨0, 0, 6, 0⟩, ⟨0, 0, 8, 0⟩, "Hi"⟩]
        = "1\n00:00:01,000 --> 00:00:05,000\nHello, World!\n\n2\n00:00:06,000 --> 00:00:08,000\nHi\n\n" :=
  ⟨fun subs => write_loop_eq_serializeSpec subs 0, rfl, rfl⟩

/-- The parse loop succeeds exactly when every line-read result it consumes is
a successful read; per-block parse failures never surface. -/
theorem read_loop_isOk_iff (lines : List (Except String String)) :
    ∀ (acc : List Subtitle) (buf : List String),
      (SRT.read_loop acc buf lines).isOk = true ↔ ∀ x ∈ lines, x.isOk = true := by
  induction lines with
  | nil =>
    intro acc buf
    simp [SRT.read_loop, Except.isOk, Except.toBool]
  | cons hd tl ih =>
    intro acc buf
    cases hd with
    | error e =>
      simp [SRT.read_loop, Except.isOk, Except.toBool]
    | ok line =>
      simp only [SRT.read_loop, List.mem_cons, forall_eq_or_imp]
      split
      · rw [ih]
        simp [Except.isOk, Except.toBool]
      · split
        · split
          · rw [ih]
            simp [Except.isOk, Except.toBool]
          · rw [ih]
            simp [Except.isOk, Except.toBool]
        · rw [ih]
          simp [Except.isOk, Except.toBool]

/-- `C8`: the document parse loop never fails on a malformed block — reading
succeeds exactly when no underlying line read fails; a blank line clears the
accumulating buffer without error; a non-empty incomplete buffer at end of
input is silently dropped; and a malformed block is skipped while parsing
continues with the following blocks. -/
theorem C8_read_recovers :
    (∀ lines : List (Except String String),
      (SRT.read_file lines).isOk = true ↔ ∀ x ∈ lines, x.isOk = true)
      ∧ (∀ (line : String) (rest : List (Except String String)) (acc : List Subtitle)
          (buf : List String), (strTrim line).data.isEmpty = true →
          SRT.read_loop acc buf (Except.ok line :: rest) = SRT.read_loop acc [] rest)
      ∧ (∀ (acc : List Subtitle) (buf : List String),
          SRT.read_loop acc buf [] = Except.ok acc)
      ∧ SRT.read_file [Except.ok "1", Except.ok "00:00:01,000-->00:00:05,000",
          Except.ok "", Except.ok "2", Except.ok "00:00:06,000 --> 00:00:08,000",
          Except.ok "Hi"]
        = Except.ok [⟨⟨0, 0, 6, 0⟩, ⟨0, 0, 8, 0⟩, "Hi"⟩] := by
  refine ⟨fun lines => read_loop_isOk_iff lines [] [], ?_, fun acc buf => rfl, rfl⟩
  intro line rest acc buf h
  simp only [SRT.read_loop, h, if_true]

/-- Witness for the hypothesis-bearing part of `C8_read_recovers`: a blank
line clears a non-empty buffer. -/
theorem C8_witness :
    SRT.read_loop [] ["x"] [Except.ok " "] = SRT.read_loop [] [] [] :=
  C8_read_recovers.2.1 " " [] [] ["x"] rfl

/-- If the separator does not occur, the split leaves the haystack whole. -/
theorem splitSepFuel_of_not_contains (sep : List Char) :
    ∀ (hay : List Char) (fuel : Nat), hay.length ≤ fuel →
      containsList sep hay = false → splitSepFuel sep fuel hay = [hay] := by
  intro hay
  induction hay with
  | nil =>
    intro fuel _ _
    cases fuel <;> rfl
  | cons c rest ih =>
    intro fuel hlen hcon
    unfold containsList at hcon
    rw [Bool.or_eq_false_iff] at hcon
    cases fuel with
    | zero => simp at hlen
    | succ fuel =>
      unfold splitSepFuel
      rw [if_neg (by simp [hcon.1])]
      rw [ih fuel (by simp at hlen; omega) hcon.2]

/-- Rust `split` on a pattern that does not occur returns the whole string as
its only item. -/
theorem strSplit_of_not_contains (s sep : String) (h : strContains s sep = false) :
    strSplit s sep = [s] := by
  unfold strContains at h
  unfold strSplit splitSepList
  rw [splitSepFuel_of_not_contains sep.data s.data s.data.length le_rfl h]
  rfl

/-- `C10`: when the first `-->`-containing line of a block lacks the spaced
separator `" --> "` (and a text line follows), `Subtitle::new` fails with the
end-timestamp extraction error on that line instead of searching later lines —
even when a later line carries a well-formed range. -/
theorem C10_separator_mismatch :
    (∀ (lines : List String) (i : Nat),
      List.findIdx? (fun line => strContains line "-->") lines = some i →
      strContains (lines.getD i "") " --> " = false →
      i + 1 < lines.length →
      Subtitle.new lines = Except.error "Invalid end timestamp")
      ∧ Subtitle.new ["00:00:01,000-->00:00:05,000",
          "00:00:01,000 --> 00:00:05,000", "Hello"]
        = Except.error "Invalid end timestamp" := by
  refine ⟨?_, rfl⟩
  intro lines i hfind hsep hlen
  unfold Subtitle.new
  rw [hfind]
  simp only
  rw [if_neg (by omega)]
  rw [strSplit_of_not_contains _ _ hsep]

/-- Witness for `C10_separator_mismatch` on the two-line block
`["ab-->cd", "x"]`. -/
theorem C10_witness :
    Subtitle.new ["ab-->cd", "x"] = Except.error "Invalid end timestamp" :=
  C10_separator_mismatch.1 ["ab-->cd", "x"] 0 rfl rfl (by norm_num)

end Shu2al
